import Mathlib

/-!
Verification development for the incident-response-system frontend core:
the resilient request-orchestration layer (retry/backoff/timeout/cancellation
in `frontend/src/lib/api.ts`, constants in `frontend/src/lib/constants.ts`,
error formatting in `frontend/src/lib/errors.ts`, the operation lifecycle in
`frontend/src/hooks/useAnalysis.ts`, and the structured document model from
`frontend/src/types/index.ts`).

Durations are modelled in milliseconds as rationals (JS numbers used for
time arithmetic here are exact on these ranges); HTTP statuses are naturals.
The nondeterministic environment of one dispatcher invocation (what each
network attempt does, the values drawn from Math.random, the behavior of the
Date parser, the current clock) is passed in explicitly, so every function
below is a pure, executable translation of the corresponding source function.
-/

namespace IncidentResponse

/-! ## Constants (`frontend/src/lib/constants.ts`) -/

def MAX_RETRIES : Nat := 2

def DEFAULT_TIMEOUT_MS : ℚ := 30000

def INITIAL_RETRY_DELAY_MS : ℚ := 1000

def MAX_RETRY_DELAY_MS : ℚ := 10000

/-! ## Error classes (`api.ts`)

`ApiError` and `TimeoutError` are the custom classes of `api.ts`;
`typeError` stands for a JS `TypeError` thrown by `fetch` on a transport
failure; `abortError` stands for the `AbortError` a fetch rejects with when
its `AbortController` was aborted by the caller's signal. -/

inductive JsError
  | apiError (message : String) (status : Nat) (details : Option (List String))
      (retryable : Bool)
  | timeoutError (message : String)
  | typeError (message : String)
  | abortError
deriving DecidableEq

/-- `error.name === "AbortError"` check used in `api.ts` and `errors.ts`. -/
def JsError.isAbortName : JsError → Bool
  | .abortError => true
  | _ => false

/-- JS `String.prototype.includes`. -/
def stringIncludes (s sub : String) : Bool := 2 ≤ (s.splitOn sub).length

/-! ## HTTP responses

A `Response` is the part of a fetch `Response` the client reads: the status,
the `statusText`, the `Retry-After` header, and the two fields the error path
reads from the parsed JSON body (`detail` is `none` when the field is absent
or the body failed to parse, mirroring the `.catch(() => ({}))`). -/

structure Response where
  status : Nat
  statusText : String
  retryAfterHeader : Option String
  detail : Option String
  errors : Option (List String)
deriving DecidableEq

/-- JS `response.ok`: status in the range 200–299. -/
def Response.ok (r : Response) : Bool :=
  decide (200 ≤ r.status) && decide (r.status < 300)

/-- JS falsy-`||` on a possibly-missing string field: the fallback is used
when the field is absent or the empty string. -/
def jsOrString (a : Option String) (b : String) : String :=
  match a with
  | some s => if s = "" then b else s
  | none => b

/-! ## Timeout guard (`fetchWithTimeout`) -/

/-- What one guarded fetch attempt does, as chosen by the environment:
it resolves with a response, rejects with a transport `TypeError`, or is
aborted (`controller.abort()` ran — by the deadline timer or the
caller-supplied signal; `userAborted` records whether `userSignal.aborted`
held when the rejection was handled). -/
inductive GuardEvent
  | completes (r : Response)
  | fetchFails (msg : String)
  | abortFired (userAborted : Bool)
deriving DecidableEq

/-- `fetchWithTimeout` of `api.ts`: on an `AbortError`, rethrows it if the
caller's signal aborted (caller precedence), otherwise converts it into a
`TimeoutError`; other rejections pass through. -/
def fetchWithTimeout (timeoutMs : ℚ) (ev : GuardEvent) : Except JsError Response :=
  match ev with
  | .completes r => .ok r
  | .fetchFails msg => .error (.typeError msg)
  | .abortFired userAborted =>
      if userAborted then .error .abortError
      else .error (.timeoutError ("Request timed out after " ++ toString timeoutMs ++ "ms"))

/-! ## Backoff policy (`calculateRetryDelay`, `parseRetryAfter`) -/

/-- `calculateRetryDelay` of `api.ts`; `random` is the value Math.random
returned (a value in `[0, 1)`). -/
def calculateRetryDelay (attempt : Nat) (random : ℚ) : ℚ :=
  let exponentialDelay := INITIAL_RETRY_DELAY_MS * 2 ^ attempt
  let cappedDelay := min exponentialDelay MAX_RETRY_DELAY_MS
  cappedDelay + random * 1000

/-- JS `parseInt(s, 10)`: skip leading whitespace, optional sign, then the
longest prefix of decimal digits; `none` models `NaN` (no digits). -/
def jsParseInt (s : String) : Option Int :=
  let cs := s.data.dropWhile Char.isWhitespace
  let signed : Int × List Char :=
    match cs with
    | '-' :: r => (-1, r)
    | '+' :: r => (1, r)
    | r => (1, r)
  let digits := signed.2.takeWhile Char.isDigit
  if digits.isEmpty then none
  else some (signed.1 * (digits.foldl (fun acc c => acc * 10 + (c.toNat - 48)) 0 : Nat))

/-- `parseRetryAfter` of `api.ts`. `dateParse` is the oracle for
`new Date(s).getTime()` (`none` models `NaN`), `now` for `Date.now()`,
both in ms. -/
def parseRetryAfter (dateParse : String → Option Int) (now : Int)
    (retryAfter : Option String) (fallbackDelay : ℚ) : ℚ :=
  match retryAfter with
  | none => fallbackDelay
  | some s =>
      match jsParseInt s with
      | some seconds => min ((seconds : ℚ) * 1000) MAX_RETRY_DELAY_MS
      | none =>
          match dateParse s with
          | some retryDate => min (max 0 ((retryDate : ℚ) - (now : ℚ))) MAX_RETRY_DELAY_MS
          | none => fallbackDelay

/-! ## Error classification (`isRetryableError`) -/

def isRetryableError : JsError → Bool
  | .typeError msg => stringIncludes msg "fetch"
  | .timeoutError _ => true
  | .apiError _ status _ _ => decide (500 ≤ status) || decide (status = 429)
  | .abortError => false

/-! ## Retrying dispatcher (`fetchWithRetry`) -/

/-- The environment of one `fetchWithRetry` invocation: what each attempt
does, the Math.random draw used for that attempt's backoff computation, the
Date-parsing oracle and the clock (read by `parseRetryAfter`). -/
structure RetryEnv where
  events : Nat → GuardEvent
  random : Nat → ℚ
  dateParse : String → Option Int
  now : Int

/-- The observable behavior of one `fetchWithRetry` invocation: the value it
returns or the error it throws, how many attempts it executed, and the
`sleep` durations it awaited, in order. -/
structure RetryResult where
  outcome : Except JsError Response
  attempts : Nat
  waits : List ℚ

/-- The loop body of `fetchWithRetry`, at loop index `attempt`, carrying the
`lastError` variable. `fuel` counts the loop iterations still permitted by
the `for` header; the fuel-0 result is the dead `throw lastError` after the
loop (never reached from `fetchWithRetry`, which supplies
`maxRetries + 1` iterations). -/
def fetchWithRetryGo (env : RetryEnv) (maxRetries : Nat) :
    Nat → Option JsError → Nat → RetryResult
  | _attempt, lastError, 0 =>
      { outcome := .error (lastError.getD (.typeError "undefined")), attempts := 0, waits := [] }
  | attempt, lastError, fuel + 1 =>
      match fetchWithTimeout DEFAULT_TIMEOUT_MS (env.events attempt) with
      | .ok r =>
          if 500 ≤ r.status ∧ attempt < maxRetries then
            let d := calculateRetryDelay attempt (env.random attempt)
            let rest := fetchWithRetryGo env maxRetries (attempt + 1) lastError fuel
            { outcome := rest.outcome, attempts := rest.attempts + 1, waits := d :: rest.waits }
          else if r.status = 429 ∧ attempt < maxRetries then
            let d := parseRetryAfter env.dateParse env.now r.retryAfterHeader
                (calculateRetryDelay attempt (env.random attempt))
            let rest := fetchWithRetryGo env maxRetries (attempt + 1) lastError fuel
            { outcome := rest.outcome, attempts := rest.attempts + 1, waits := d :: rest.waits }
          else
            { outcome := .ok r, attempts := 1, waits := [] }
      | .error e =>
          if e.isAbortName then
            { outcome := .error e, attempts := 1, waits := [] }
          else if isRetryableError e ∧ attempt < maxRetries then
            let d := calculateRetryDelay attempt (env.random attempt)
            let rest := fetchWithRetryGo env maxRetries (attempt + 1) (some e) fuel
            { outcome := rest.outcome, attempts := rest.attempts + 1, waits := d :: rest.waits }
          else
            { outcome := .error e, attempts := 1, waits := [] }

/-- `fetchWithRetry` of `api.ts`: the loop `for attempt in 0..=maxRetries`. -/
def fetchWithRetry (env : RetryEnv) (maxRetries : Nat) : RetryResult :=
  fetchWithRetryGo env maxRetries 0 none (maxRetries + 1)

/-- Total wall-clock time of a dispatcher run: the durations of the attempts
it executed (supplied by the environment, per attempt index) plus every
backoff wait. -/
def RetryResult.elapsed (res : RetryResult) (dur : Nat → ℚ) : ℚ :=
  (((List.range res.attempts).map dur).sum) + res.waits.sum

/-! ## Response handling (`handleResponse`) and the composed request -/

/-- `handleResponse` of `api.ts`: a non-ok response becomes an `ApiError`
carrying the body's `detail` (or a fallback message), the status, the body's
`errors` list, and the stored retryability flag. -/
def handleResponse (r : Response) : Except JsError Response :=
  if r.ok then .ok r
  else .error (.apiError
    (jsOrString r.detail ("Request failed: " ++ r.statusText))
    r.status r.errors
    (decide (500 ≤ r.status) || decide (r.status = 429)))

/-- The composition `analyzeTranscript` / `refineWithFeedback` perform:
`fetchWithRetry` followed by `handleResponse` on a returned response. -/
def requestWithRetryAndHandle (env : RetryEnv) (maxRetries : Nat) :
    Except JsError Response :=
  match (fetchWithRetry env maxRetries).outcome with
  | .ok r => handleResponse r
  | .error e => .error e

/-- Whether one guarded attempt ends in a retryable failure in the sense of
the error taxonomy: a 5xx response, a 429 response, a transport failure
(a fetch `TypeError`; its message contains "fetch", as the messages raised
by `fetch` do), or a guard-deadline timeout. -/
def retryableEvent : GuardEvent → Bool
  | .completes r => decide (500 ≤ r.status) || decide (r.status = 429)
  | .fetchFails msg => stringIncludes msg "fetch"
  | .abortFired userAborted => !userAborted

/-- The error the caller sees when a given attempt outcome is the final one:
the guard's classification for thrown errors, `handleResponse`'s
classification for returned non-ok responses; `none` for an ok response. -/
def classifyFinal (ev : GuardEvent) : Option JsError :=
  match fetchWithTimeout DEFAULT_TIMEOUT_MS ev with
  | .error e => some e
  | .ok r =>
      match handleResponse r with
      | .error e => some e
      | .ok _ => none

/-! ## Structured document model (`frontend/src/types/index.ts`) -/

structure IncidentForm where
  date_and_time_of_incident : String
  service_user_name : String
  location_of_incident : String
  type_of_incident : String
  description_of_incident : String
  immediate_actions_taken : String
  was_first_aid_administered : Bool
  were_emergency_services_contacted : Bool
  who_was_notified : String
  witnesses : String
  agreed_next_steps : String
  risk_assessment_needed : Bool
  if_yes_which_risk_assessment : String
deriving DecidableEq

structure PolicyAnalysis where
  relevant_policies : List String
  policy_compliance : List String
  recommended_actions : List String
  concerns : List String
deriving DecidableEq

structure DraftEmail where
  «to» : List String
  cc : Option (List String)
  subject : String
  body : String
deriving DecidableEq

structure AnalysisResponse where
  incident_form : IncidentForm
  policy_analysis : PolicyAnalysis
  draft_email : DraftEmail
  source_quotes : List (String × String)
deriving DecidableEq

/-- Modelled from the spec: the backend Pydantic validators of `models.py`
are not under `src/`; the minimum-content constraints are taken from spec §3
and the validator comments in `frontend/src/types/index.ts`
(`min_length=1` on the listed scalar fields, `min_length=10` on
`description_of_incident`). The ISO-date format check on
`date_and_time_of_incident` is outside this model. -/
def validIncidentForm (f : IncidentForm) : Bool :=
  decide (1 ≤ f.service_user_name.length) &&
  decide (1 ≤ f.location_of_incident.length) &&
  decide (1 ≤ f.type_of_incident.length) &&
  decide (10 ≤ f.description_of_incident.length) &&
  decide (1 ≤ f.immediate_actions_taken.length) &&
  decide (1 ≤ f.who_was_notified.length) &&
  decide (1 ≤ f.agreed_next_steps.length)

/-- Modelled from the spec: `draft_email` constraints — `to` a non-empty
list of non-empty strings, `cc` null or a list of non-empty strings,
`subject` at least 5 chars, `body` at least 20 chars. -/
def validDraftEmail (e : DraftEmail) : Bool :=
  decide (1 ≤ e.«to».length) &&
  e.«to».all (fun a => decide (1 ≤ a.length)) &&
  (match e.cc with
   | none => true
   | some cs => cs.all (fun a => decide (1 ≤ a.length))) &&
  decide (5 ≤ e.subject.length) &&
  decide (20 ≤ e.body.length)

/-- Modelled from the spec: the minimum-content validation of an
`AnalysisResponse`'s non-nullable fields. -/
def validAnalysisResponse (r : AnalysisResponse) : Bool :=
  validIncidentForm r.incident_form && validDraftEmail r.draft_email

/-- Modelled from the spec: the check applied before a document returned by
`POST /v1/analyze` is accepted (the backend validates the response against
the `AnalysisResponse` model before sending it). -/
def acceptAnalyzeResponse (r : AnalysisResponse) : Bool :=
  validAnalysisResponse r

/-- Modelled from the spec: the check applied to `original_response` when a
refinement request crosses the boundary (the backend validates the embedded
document against the same `AnalysisResponse` model on ingestion). -/
def validateRefinementBase (r : AnalysisResponse) : Bool :=
  validAnalysisResponse r

/-- A fully populated document meeting every minimum-content constraint. -/
def sampleAnalysisResponse : AnalysisResponse :=
  { incident_form :=
      { date_and_time_of_incident := "2025-01-31T14:30:00",
        service_user_name := "Greg Jones",
        location_of_incident := "Day centre main hall",
        type_of_incident := "Fall",
        description_of_incident := "Greg slipped near the doorway and fell on his left side.",
        immediate_actions_taken := "Staff helped Greg to a chair and checked for injuries.",
        was_first_aid_administered := true,
        were_emergency_services_contacted := false,
        who_was_notified := "Duty manager",
        witnesses := "Two staff members",
        agreed_next_steps := "Arrange a moving and handling assessment.",
        risk_assessment_needed := true,
        if_yes_which_risk_assessment := "Falls risk assessment" },
    policy_analysis :=
      { relevant_policies := ["Falls and mobility policy"],
        policy_compliance := ["Incident reported within required timescale"],
        recommended_actions := ["Arrange GP review"],
        concerns := ["Third fall this week"] },
    draft_email :=
      { «to» := ["manager@example.com"],
        cc := none,
        subject := "Incident report: fall involving Greg Jones",
        body := "Please find attached the incident report for review and action." },
    source_quotes := [("description_of_incident", "he slipped near the doorway")] }

/-- The sample document with `draft_email.to`'s only element removed. -/
def sampleNoRecipients : AnalysisResponse :=
  { sampleAnalysisResponse with
    draft_email := { sampleAnalysisResponse.draft_email with «to» := [] } }

/-- The sample document with `description_of_incident` shortened below 10
characters. -/
def sampleShortDescription : AnalysisResponse :=
  { sampleAnalysisResponse with
    incident_form :=
      { sampleAnalysisResponse.incident_form with
        description_of_incident := "Too short" } }

/-! ## Error formatting (`frontend/src/lib/errors.ts`) -/

def formatErrorMessage : JsError → String
  | .timeoutError _ => "Request timed out. The server may be busy - please try again."
  | .apiError message _ details _ =>
      match details with
      | some ds =>
          if 0 < ds.length then message ++ ": " ++ String.intercalate ", " ds
          else message
      | none => message
  | .typeError msg => msg
  | .abortError => "The operation was aborted."

def isAbortError (e : JsError) : Bool := e.isAbortName

/-! ## Operation lifecycle (`frontend/src/hooks/useAnalysis.ts`)

The hook is modelled as a state machine driven by macrotask-granular
events. `start k id` is one call of `analyze`/`refine` up to its `await`
(it aborts the previous same-kind controller and installs its own);
`complete k id res` is the settling of invocation `id`'s network promise
together with the continuation after the `await`, which in the JS event
loop runs before any further user event can be dispatched. An invocation
whose controller is no longer the current one for its kind was aborted
while in flight, so its promise rejected with an `AbortError` regardless of
what the network would have delivered; `unmount` is the cleanup effect
calling `cancelRequests`. -/

inductive OpKind
  | analyzeOp
  | refineOp
deriving DecidableEq

/-- How an invocation's network call would settle, absent cancellation:
a parsed document, or a thrown error. -/
inductive NetResult
  | success (doc : AnalysisResponse)
  | failure (e : JsError)
deriving DecidableEq

inductive LifeEvent
  | start (k : OpKind) (id : Nat)
  | complete (k : OpKind) (id : Nat) (res : NetResult)
  | unmount
deriving DecidableEq

/-- An observable publication: a `setResult` or a `setError` performed by
invocation `id`. -/
inductive Publication
  | publishedDoc (id : Nat) (doc : AnalysisResponse)
  | publishedError (id : Nat) (msg : String)
deriving DecidableEq

structure LifeState where
  result : Option AnalysisResponse
  error : Option String
  loading : Bool
  refining : Bool
  analyzeToken : Option Nat
  refineToken : Option Nat
deriving DecidableEq

/-- The id owning the kind's current `AbortController`, if one is armed. -/
def LifeState.tokenOf (s : LifeState) : OpKind → Option Nat
  | .analyzeOp => s.analyzeToken
  | .refineOp => s.refineToken

def initialLifeState : LifeState :=
  { result := none, error := none, loading := false, refining := false,
    analyzeToken := none, refineToken := none }

def noResultMsg : String := "No result to refine. Please analyze a transcript first."

/-- The `finally` block of the kind's handler: `setLoading(false)` or
`setRefining(false)`. -/
def clearFlag (s : LifeState) : OpKind → LifeState
  | .analyzeOp => { s with loading := false }
  | .refineOp => { s with refining := false }

structure StepOut where
  state : LifeState
  pubs : List Publication
deriving DecidableEq

/-- One event of the hook. `start` follows `analyze`/`refine` up to the
network call (`refine` first rejects locally when there is no result to
refine); `complete` follows the `try`/`catch`/`finally` around the await:
if the invocation's controller is still current the network outcome is
handled (success publishes the document, a non-abort error publishes a
formatted message, an abort is silent), otherwise the promise rejected with
an `AbortError` and the catch returns silently. -/
def lifeStep (s : LifeState) : LifeEvent → StepOut
  | .start .analyzeOp id =>
      { state := { s with analyzeToken := some id, loading := true, error := none },
        pubs := [] }
  | .start .refineOp id =>
      if s.result = none then
        { state := { s with error := some noResultMsg },
          pubs := [Publication.publishedError id noResultMsg] }
      else
        { state := { s with refineToken := some id, refining := true, error := none },
          pubs := [] }
  | .unmount =>
      { state := { s with analyzeToken := none, refineToken := none }, pubs := [] }
  | .complete k id res =>
      if s.tokenOf k = some id then
        match res with
        | .success doc =>
            { state := clearFlag { s with result := some doc } k,
              pubs := [Publication.publishedDoc id doc] }
        | .failure e =>
            if isAbortError e then
              { state := clearFlag s k, pubs := [] }
            else
              { state := clearFlag { s with error := some (formatErrorMessage e) } k,
                pubs := [Publication.publishedError id (formatErrorMessage e)] }
      else
        { state := clearFlag s k, pubs := [] }

/-- Run a list of events, collecting publications in order. -/
def runSteps (s : LifeState) : List LifeEvent → LifeState × List Publication
  | [] => (s, [])
  | e :: rest =>
      let o := lifeStep s e
      let r := runSteps o.state rest
      (r.1, o.pubs ++ r.2)

/-! ## Concrete environments used by witnesses and counterexamples -/

def response503 : Response :=
  { status := 503, statusText := "Service Unavailable", retryAfterHeader := none,
    detail := none, errors := none }

/-- An environment in which every attempt gets a 503 response, the random
draws are all 0, and no `Retry-After` parsing happens. -/
def threeServerFailuresEnv : RetryEnv :=
  { events := fun _ => .completes response503, random := fun _ => 0,
    dateParse := fun _ => none, now := 0 }

def response422 : Response :=
  { status := 422, statusText := "Unprocessable Entity", retryAfterHeader := none,
    detail := some "Validation failed", errors := some ["feedback too short"] }

def clientFailureEnv : RetryEnv :=
  { events := fun _ => .completes response422, random := fun _ => 0,
    dateParse := fun _ => none, now := 0 }

def callerAbortEnv : RetryEnv :=
  { events := fun _ => .abortFired true, random := fun _ => 0,
    dateParse := fun _ => none, now := 0 }

/-- The spec's description of which statuses are retryable, for comparison
with the code's three determinations (claim C10). -/
def retryableStatus (s : Nat) : Bool := decide (500 ≤ s) || decide (s = 429)

/-- An environment that answers every attempt with the same response, used
to observe which statuses the retry loop actually retries. -/
def constResponseEnv (r : Response) : RetryEnv :=
  { events := fun _ => .completes r, random := fun _ => 0,
    dateParse := fun _ => none, now := 0 }

/-! ## Helper lemmas about the retry loop -/

theorem fetchWithRetryGo_attempts_pos (env : RetryEnv) (maxRetries a : Nat)
    (lastError : Option JsError) (fuel : Nat) :
    1 ≤ (fetchWithRetryGo env maxRetries a lastError (fuel + 1)).attempts := by
  simp only [fetchWithRetryGo]
  split
  · split
    · simp
    · split
      · simp
      · simp
  · split
    · simp
    · split
      · simp
      · simp

/-- One retryable failure below the budget: the loop waits once and
re-enters with attempt index `a + 1`. -/
theorem fetchWithRetryGo_retry_step (env : RetryEnv) (maxRetries a : Nat)
    (lastError : Option JsError) (fuel : Nat)
    (hlt : a < maxRetries) (hre : retryableEvent (env.events a) = true) :
    ∃ d lastError2,
      fetchWithRetryGo env maxRetries a lastError (fuel + 1) =
        { outcome := (fetchWithRetryGo env maxRetries (a + 1) lastError2 fuel).outcome,
          attempts := (fetchWithRetryGo env maxRetries (a + 1) lastError2 fuel).attempts + 1,
          waits := d :: (fetchWithRetryGo env maxRetries (a + 1) lastError2 fuel).waits } := by
  cases hev : env.events a with
  | completes r =>
      have hs : 500 ≤ r.status ∨ r.status = 429 := by
        have := hre
        simp only [retryableEvent, hev, Bool.or_eq_true, decide_eq_true_eq] at this
        exact this
      by_cases h5 : 500 ≤ r.status
      · exact ⟨calculateRetryDelay a (env.random a), lastError, by
          simp [fetchWithRetryGo, hev, fetchWithTimeout, h5, hlt]⟩
      · have h9 : r.status = 429 := by tauto
        exact ⟨parseRetryAfter env.dateParse env.now r.retryAfterHeader
            (calculateRetryDelay a (env.random a)), lastError, by
          simp [fetchWithRetryGo, hev, fetchWithTimeout, h5, h9, hlt]⟩
  | fetchFails msg =>
      have hm : stringIncludes msg "fetch" = true := by
        simpa [retryableEvent, hev] using hre
      exact ⟨calculateRetryDelay a (env.random a), some (.typeError msg), by
        simp [fetchWithRetryGo, hev, fetchWithTimeout, JsError.isAbortName,
          isRetryableError, hm, hlt]⟩
  | abortFired b =>
      have hb : b = false := by simpa [retryableEvent, hev] using hre
      subst hb
      exact ⟨calculateRetryDelay a (env.random a),
        some (.timeoutError ("Request timed out after " ++ toString DEFAULT_TIMEOUT_MS ++ "ms")), by
        simp [fetchWithRetryGo, hev, fetchWithTimeout, JsError.isAbortName,
          isRetryableError, hlt]⟩

/-- A retryable failure at the last budgeted attempt: the loop stops and the
guard's outcome is surfaced as is. -/
theorem fetchWithRetryGo_final_step (env : RetryEnv) (maxRetries a : Nat)
    (lastError : Option JsError) (fuel : Nat)
    (hge : ¬ a < maxRetries) (hre : retryableEvent (env.events a) = true) :
    fetchWithRetryGo env maxRetries a lastError (fuel + 1) =
      { outcome := fetchWithTimeout DEFAULT_TIMEOUT_MS (env.events a),
        attempts := 1, waits := [] } := by
  cases hev : env.events a with
  | completes r =>
      simp [fetchWithRetryGo, hev, fetchWithTimeout, hge]
  | fetchFails msg =>
      simp [fetchWithRetryGo, hev, fetchWithTimeout, JsError.isAbortName, hge]
  | abortFired b =>
      have hb : b = false := by simpa [retryableEvent, hev] using hre
      subst hb
      simp [fetchWithRetryGo, hev, fetchWithTimeout, JsError.isAbortName, hge]

/-! ## Claim theorems -/

/-- C1: when every attempt of a dispatcher run ends in a retryable failure
(5xx, 429, a transport failure, or a guard timeout), the dispatcher with the
default budget makes exactly 3 attempts (1 initial + 2 retries,
`MAX_RETRIES = 2`) and the caller receives, as a terminal error, the failure
classified from the last attempt. -/
theorem c1_retry_budget_exhausted (env : RetryEnv)
    (h : ∀ n, n < 3 → retryableEvent (env.events n) = true) :
    (fetchWithRetry env MAX_RETRIES).attempts = 3 ∧
    ∃ e, classifyFinal (env.events 2) = some e ∧
      requestWithRetryAndHandle env MAX_RETRIES = Except.error e := by
  obtain ⟨d0, l0, h0⟩ := fetchWithRetryGo_retry_step env 2 0 none 2 (by omega) (h 0 (by omega))
  obtain ⟨d1, l1, h1⟩ := fetchWithRetryGo_retry_step env 2 1 l0 1 (by omega) (h 1 (by omega))
  have h2 := fetchWithRetryGo_final_step env 2 2 l1 0 (by omega) (h 2 (by omega))
  norm_num at h0 h1 h2
  rw [h2] at h1
  simp at h1
  rw [h1] at h0
  simp at h0
  have hrun : fetchWithRetry env MAX_RETRIES = fetchWithRetryGo env 2 0 none 3 := rfl
  constructor
  · rw [hrun, h0]
  · have hre := h 2 (by omega)
    simp only [requestWithRetryAndHandle, hrun, h0]
    cases hev : env.events 2 with
    | completes r =>
        rw [hev] at hre
        simp only [retryableEvent, Bool.or_eq_true, decide_eq_true_eq] at hre
        have h300 : ¬ r.status < 300 := by rcases hre with h' | h' <;> omega
        have hok : r.ok = false := by simp [Response.ok, h300]
        refine ⟨JsError.apiError (jsOrString r.detail ("Request failed: " ++ r.statusText))
          r.status r.errors (decide (500 ≤ r.status) || decide (r.status = 429)), ?_, ?_⟩ <;>
          simp [classifyFinal, hev, fetchWithTimeout, handleResponse, hok]
    | fetchFails msg =>
        exact ⟨JsError.typeError msg, by simp [classifyFinal, hev, fetchWithTimeout],
          by simp [fetchWithTimeout]⟩
    | abortFired b =>
        rw [hev] at hre
        have hb : b = false := by simpa [retryableEvent] using hre
        subst hb
        exact ⟨JsError.timeoutError ("Request timed out after " ++ toString DEFAULT_TIMEOUT_MS ++ "ms"),
          by simp [classifyFinal, hev, fetchWithTimeout], by simp [fetchWithTimeout]⟩

theorem c1_witness :
    (fetchWithRetry threeServerFailuresEnv MAX_RETRIES).attempts = 3 ∧
    ∃ e, classifyFinal (threeServerFailuresEnv.events 2) = some e ∧
      requestWithRetryAndHandle threeServerFailuresEnv MAX_RETRIES = Except.error e :=
  c1_retry_budget_exhausted threeServerFailuresEnv
    (fun n _ => show retryableEvent (GuardEvent.completes response503) = true by decide)

/-- C2: the backoff delay is exactly `min(initial * 2^n, max) + jitter` with
jitter `random * 1000 ∈ [0, 1000)` ms; it never exceeds `max_delay + 1s`, is
at least the capped exponential term, and the pre-jitter component is
monotone non-decreasing in the attempt index. -/
theorem c2_backoff_formula_and_bounds (n m : Nat) (r : ℚ)
    (hr0 : 0 ≤ r) (hr1 : r < 1) :
    calculateRetryDelay n r =
      min (INITIAL_RETRY_DELAY_MS * 2 ^ n) MAX_RETRY_DELAY_MS + r * 1000 ∧
    calculateRetryDelay n r ≤ MAX_RETRY_DELAY_MS + 1000 ∧
    min (INITIAL_RETRY_DELAY_MS * 2 ^ n) MAX_RETRY_DELAY_MS ≤ calculateRetryDelay n r ∧
    (n ≤ m →
      min (INITIAL_RETRY_DELAY_MS * 2 ^ n) MAX_RETRY_DELAY_MS ≤
        min (INITIAL_RETRY_DELAY_MS * 2 ^ m) MAX_RETRY_DELAY_MS) := by
  refine ⟨rfl, ?_, ?_, ?_⟩
  · have hj : r * 1000 ≤ 1000 := by nlinarith
    have hmin : min (INITIAL_RETRY_DELAY_MS * 2 ^ n) MAX_RETRY_DELAY_MS ≤
        MAX_RETRY_DELAY_MS := min_le_right _ _
    simp only [calculateRetryDelay]
    linarith
  · have hj : 0 ≤ r * 1000 := by positivity
    simp only [calculateRetryDelay]
    linarith
  · intro hnm
    have h2 : (2 : ℚ) ^ n ≤ 2 ^ m := pow_le_pow_right₀ one_le_two hnm
    have hmul : INITIAL_RETRY_DELAY_MS * 2 ^ n ≤ INITIAL_RETRY_DELAY_MS * 2 ^ m :=
      mul_le_mul_of_nonneg_left h2 (by norm_num [INITIAL_RETRY_DELAY_MS])
    exact min_le_min hmul le_rfl

theorem c2_witness :
    calculateRetryDelay 3 (1 / 2) =
      min (INITIAL_RETRY_DELAY_MS * 2 ^ 3) MAX_RETRY_DELAY_MS + (1 / 2) * 1000 ∧
    calculateRetryDelay 3 (1 / 2) ≤ MAX_RETRY_DELAY_MS + 1000 := by
  have h := c2_backoff_formula_and_bounds 3 4 (1 / 2) (by norm_num) (by norm_num)
  exact ⟨h.1, h.2.1⟩

/-- C3: a `Retry-After` hint that parses as whole seconds yields a wait of
`min(s * 1000, max_delay)` (so a hint of 5 waits exactly 5000 ms ≥ 5 s); one
that parses only as a date yields `min(max(0, timestamp - now), max_delay)`;
an unparsable or absent hint falls back to the computed exponential delay;
and on a 429 attempt below the budget the loop's wait is exactly
`parseRetryAfter` of the header with the exponential delay as fallback. -/
theorem c3_retry_after_hint (dp : String → Option Int) (now : Int) (fb : ℚ)
    (s : String) :
    (∀ k : Int, jsParseInt s = some k →
        parseRetryAfter dp now (some s) fb = min ((k : ℚ) * 1000) MAX_RETRY_DELAY_MS) ∧
    (jsParseInt s = none → ∀ ts : Int, dp s = some ts →
        parseRetryAfter dp now (some s) fb =
          min (max 0 ((ts : ℚ) - (now : ℚ))) MAX_RETRY_DELAY_MS) ∧
    (jsParseInt s = none → dp s = none → parseRetryAfter dp now (some s) fb = fb) ∧
    parseRetryAfter dp now none fb = fb ∧
    5000 ≤ parseRetryAfter dp now (some "5") fb ∧
    (∀ env maxR n lE fuel (r : Response), env.events n = GuardEvent.completes r →
        r.status = 429 → n < maxR →
        (fetchWithRetryGo env maxR n lE (fuel + 1)).waits.head? =
          some (parseRetryAfter env.dateParse env.now r.retryAfterHeader
            (calculateRetryDelay n (env.random n)))) := by
  refine ⟨?_, ?_, ?_, rfl, ?_, ?_⟩
  · intro k hk
    simp [parseRetryAfter, hk]
  · intro hn ts hts
    simp [parseRetryAfter, hn, hts]
  · intro hn hd
    simp [parseRetryAfter, hn, hd]
  · have h5 : jsParseInt "5" = some 5 := by decide
    simp only [parseRetryAfter, h5]
    norm_num [MAX_RETRY_DELAY_MS]
  · intro env maxR n lE fuel r hev h429 hlt
    have h5 : ¬ 500 ≤ r.status := by omega
    simp [fetchWithRetryGo, hev, fetchWithTimeout, h5, h429, hlt]

theorem c3_witness :
    parseRetryAfter (fun _ => none) 0 (some "5") 777 = 5000 ∧
    parseRetryAfter (fun _ => none) 0 none 777 = 777 := by
  have h := c3_retry_after_hint (fun _ => none) 0 777 "5"
  constructor
  · have h1 := h.1 5 (by decide)
    rw [h1]
    norm_num [MAX_RETRY_DELAY_MS]
  · exact h.2.2.2.1

/-- C4: a 4xx response other than 429 ends the run after exactly one
attempt, with no backoff wait, and is surfaced as an `ApiError` carrying the
body's message (`detail` or the fallback), the status, the optional
structured details list, and a false retryability flag — for any retry
budget. -/
theorem c4_client_failure_terminal (env : RetryEnv) (maxRetries : Nat)
    (r : Response) (hev : env.events 0 = GuardEvent.completes r)
    (h400 : 400 ≤ r.status) (h500 : r.status < 500) (h429 : r.status ≠ 429) :
    (fetchWithRetry env maxRetries).attempts = 1 ∧
    (fetchWithRetry env maxRetries).waits = [] ∧
    requestWithRetryAndHandle env maxRetries =
      Except.error (JsError.apiError
        (jsOrString r.detail ("Request failed: " ++ r.statusText))
        r.status r.errors false) := by
  have h5 : ¬ 500 ≤ r.status := by omega
  have h300 : ¬ r.status < 300 := by omega
  have hok : r.ok = false := by simp [Response.ok, h300]
  have hgo : fetchWithRetryGo env maxRetries 0 none (maxRetries + 1) =
      { outcome := .ok r, attempts := 1, waits := [] } := by
    simp [fetchWithRetryGo, hev, fetchWithTimeout, h5, h429]
  have hflag : (decide (500 ≤ r.status) || decide (r.status = 429)) = false := by
    simp [h5, h429]
  refine ⟨?_, ?_, ?_⟩
  · show (fetchWithRetryGo env maxRetries 0 none (maxRetries + 1)).attempts = 1
    rw [hgo]
  · show (fetchWithRetryGo env maxRetries 0 none (maxRetries + 1)).waits = []
    rw [hgo]
  · show (match (fetchWithRetryGo env maxRetries 0 none (maxRetries + 1)).outcome with
      | .ok r => handleResponse r
      | .error e => .error e) = _
    rw [hgo]
    simp [handleResponse, hok, hflag]

theorem c4_witness :
    (fetchWithRetry clientFailureEnv MAX_RETRIES).attempts = 1 ∧
    requestWithRetryAndHandle clientFailureEnv MAX_RETRIES =
      Except.error (JsError.apiError "Validation failed" 422
        (some ["feedback too short"]) false) := by
  have h := c4_client_failure_terminal clientFailureEnv MAX_RETRIES response422 rfl
    (by decide) (by decide) (by decide)
  refine ⟨h.1, ?_⟩
  have h3 := h.2.2
  simpa [response422, jsOrString] using h3

/-- C10: for a non-2xx response, the three retryability determinations
agree: the flag `handleResponse` stores on the `ApiError`, the
`isRetryableError` predicate applied to that error, and whether the retry
loop actually re-attempts that status — all hold exactly when the status is
at least 500 or equal to 429. -/
theorem c10_retryability_agreement (r : Response) (hok : r.ok = false) :
    (∃ m d, handleResponse r =
        Except.error (JsError.apiError m r.status d (retryableStatus r.status)) ∧
      isRetryableError (JsError.apiError m r.status d (retryableStatus r.status)) =
        retryableStatus r.status) ∧
    (2 ≤ (fetchWithRetry (constResponseEnv r) MAX_RETRIES).attempts ↔
      retryableStatus r.status = true) := by
  constructor
  · refine ⟨jsOrString r.detail ("Request failed: " ++ r.statusText), r.errors, ?_, ?_⟩
    · simp [handleResponse, hok, retryableStatus]
    · simp [isRetryableError, retryableStatus]
  · by_cases hrs : retryableStatus r.status = true
    · obtain ⟨d0, l0, h0⟩ := fetchWithRetryGo_retry_step (constResponseEnv r) 2 0 none 2
        (by omega) (by simpa [constResponseEnv, retryableEvent, retryableStatus] using hrs)
      norm_num at h0
      have hpos := fetchWithRetryGo_attempts_pos (constResponseEnv r) 2 1 l0 1
      norm_num at hpos
      have hA : 2 ≤ (fetchWithRetry (constResponseEnv r) MAX_RETRIES).attempts := by
        have hrun : fetchWithRetry (constResponseEnv r) MAX_RETRIES =
            fetchWithRetryGo (constResponseEnv r) 2 0 none 3 := rfl
        rw [hrun, h0]
        simp
        omega
      simp [hA, hrs]
    · have hns : ¬ 500 ≤ r.status ∧ r.status ≠ 429 := by
        simpa [retryableStatus, not_or] using hrs
      have hgo : fetchWithRetryGo (constResponseEnv r) 2 0 none 3 =
          { outcome := .ok r, attempts := 1, waits := [] } := by
        simp [fetchWithRetryGo, constResponseEnv, fetchWithTimeout, hns.1, hns.2]
      have hrun : fetchWithRetry (constResponseEnv r) MAX_RETRIES =
          fetchWithRetryGo (constResponseEnv r) 2 0 none 3 := rfl
      rw [hrun, hgo]
      simp [hrs]

theorem c10_witness :
    (∃ m d, handleResponse response422 =
        Except.error (JsError.apiError m response422.status d
          (retryableStatus response422.status)) ∧
      isRetryableError (JsError.apiError m response422.status d
          (retryableStatus response422.status)) =
        retryableStatus response422.status) ∧
    (2 ≤ (fetchWithRetry (constResponseEnv response422) MAX_RETRIES).attempts ↔
      retryableStatus response422.status = true) :=
  c10_retryability_agreement response422 rfl

/-! ## Helper lemmas about the lifecycle state machine -/

theorem clearFlag_tokenOf (s : LifeState) (k k2 : OpKind) :
    (clearFlag s k).tokenOf k2 = s.tokenOf k2 := by
  cases k <;> cases k2 <;> rfl

theorem clearFlag_result (s : LifeState) (k : OpKind) :
    (clearFlag s k).result = s.result := by
  cases k <;> rfl

theorem clearFlag_error (s : LifeState) (k : OpKind) :
    (clearFlag s k).error = s.error := by
  cases k <;> rfl

theorem clearFlag_analyzeToken (s : LifeState) (k : OpKind) :
    (clearFlag s k).analyzeToken = s.analyzeToken := by
  cases k <;> rfl

theorem clearFlag_refineToken (s : LifeState) (k : OpKind) :
    (clearFlag s k).refineToken = s.refineToken := by
  cases k <;> rfl

/-- Completions never change who owns a controller. -/
theorem lifeStep_complete_tokenOf (s : LifeState) (k2 : OpKind) (id : Nat)
    (res : NetResult) (k : OpKind) :
    ((lifeStep s (LifeEvent.complete k2 id res)).state).tokenOf k = s.tokenOf k := by
  cases res with
  | success doc =>
      simp only [lifeStep]
      split <;> cases k <;>
        simp [LifeState.tokenOf, clearFlag_analyzeToken, clearFlag_refineToken]
  | failure e2 =>
      simp only [lifeStep]
      split
      · split <;> cases k <;>
          simp [LifeState.tokenOf, clearFlag_analyzeToken, clearFlag_refineToken]
      · cases k <;>
          simp [LifeState.tokenOf, clearFlag_analyzeToken, clearFlag_refineToken]

/-- A completion for an id that no longer owns the kind's controller was
aborted in flight: the catch returns silently, so nothing is published and
neither the result nor the error changes (only the in-progress flag). -/
theorem lifeStep_stale_complete (s : LifeState) (k : OpKind) (id : Nat)
    (res : NetResult) (h : s.tokenOf k ≠ some id) :
    (lifeStep s (LifeEvent.complete k id res)).pubs = [] ∧
    (lifeStep s (LifeEvent.complete k id res)).state.result = s.result ∧
    (lifeStep s (LifeEvent.complete k id res)).state.error = s.error := by
  simp only [lifeStep]
  rw [if_neg h]
  exact ⟨rfl, clearFlag_result s k, clearFlag_error s k⟩

/-- No event other than `start k i` can make `i` the owner of kind `k`'s
controller. -/
theorem lifeStep_token_ne (s : LifeState) (e : LifeEvent) (k : OpKind) (i : Nat)
    (hne : e ≠ LifeEvent.start k i) (h : s.tokenOf k ≠ some i) :
    ((lifeStep s e).state).tokenOf k ≠ some i := by
  cases e with
  | start k2 m =>
      cases k2 with
      | analyzeOp =>
          cases k with
          | analyzeOp =>
              have hmi : m ≠ i := fun hmi => hne (by rw [hmi])
              simp [lifeStep, LifeState.tokenOf, hmi]
          | refineOp => simpa [lifeStep, LifeState.tokenOf] using h
      | refineOp =>
          cases k with
          | analyzeOp =>
              by_cases hr : s.result = none <;>
                simpa [lifeStep, LifeState.tokenOf, hr] using h
          | refineOp =>
              have hmi : m ≠ i := fun hmi => hne (by rw [hmi])
              by_cases hr : s.result = none
              · simpa [lifeStep, LifeState.tokenOf, hr] using h
              · simp [lifeStep, LifeState.tokenOf, hr, hmi]
  | complete k2 id res =>
      rw [lifeStep_complete_tokenOf]
      exact h
  | unmount =>
      cases k <;> simp [lifeStep, LifeState.tokenOf]

/-- A published document never becomes unpublished: `result` is only ever
set, never cleared. -/
theorem lifeStep_result_stays (s : LifeState) (e : LifeEvent)
    (h : s.result ≠ none) : ((lifeStep s e).state).result ≠ none := by
  cases e with
  | start k id =>
      cases k with
      | analyzeOp => simpa [lifeStep] using h
      | refineOp =>
          by_cases hr : s.result = none
          · exact absurd hr h
          · simp only [lifeStep, if_neg hr]
            exact h
  | unmount => simpa [lifeStep] using h
  | complete k id res =>
      cases res with
      | success doc =>
          simp only [lifeStep]
          split
          · simp [clearFlag_result]
          · simpa [clearFlag_result] using h
      | failure e2 =>
          simp only [lifeStep]
          split
          · split
            · simpa [clearFlag_result] using h
            · simpa [clearFlag_result] using h
          · simpa [clearFlag_result] using h

theorem lifeStep_start_result (s : LifeState) (k : OpKind) (j : Nat) :
    ((lifeStep s (LifeEvent.start k j)).state).result = s.result := by
  cases k with
  | analyzeOp => rfl
  | refineOp => by_cases hr : s.result = none <;> simp [lifeStep, hr]

/-- Starting an operation arms its kind's controller with the new id
(for `refine`, provided there is a result to refine). -/
theorem lifeStep_start_arms (s : LifeState) (k : OpKind) (j : Nat)
    (hres : k = OpKind.refineOp → s.result ≠ none) :
    ((lifeStep s (LifeEvent.start k j)).state).tokenOf k = some j := by
  cases k with
  | analyzeOp => simp [lifeStep, LifeState.tokenOf]
  | refineOp =>
      have hr : s.result ≠ none := hres rfl
      simp [lifeStep, hr, LifeState.tokenOf]

theorem runSteps_append_fst (s : LifeState) (l1 l2 : List LifeEvent) :
    (runSteps s (l1 ++ l2)).1 = (runSteps (runSteps s l1).1 l2).1 := by
  induction l1 generalizing s with
  | nil => rfl
  | cons e rest ih => simp [runSteps, ih]

theorem runSteps_token_ne (k : OpKind) (i : Nat) :
    ∀ (t : List LifeEvent) (s : LifeState), LifeEvent.start k i ∉ t →
      s.tokenOf k ≠ some i → ((runSteps s t).1).tokenOf k ≠ some i
  | [], _, _, h => h
  | e :: rest, s, hni, h => by
      have hne : e ≠ LifeEvent.start k i := fun he => hni (by simp [he])
      have hni2 : LifeEvent.start k i ∉ rest := fun hm => hni (List.mem_cons_of_mem _ hm)
      have h2 := lifeStep_token_ne s e k i hne h
      simpa [runSteps] using runSteps_token_ne k i rest ((lifeStep s e).state) hni2 h2

theorem runSteps_result_stays :
    ∀ (t : List LifeEvent) (s : LifeState), s.result ≠ none →
      ((runSteps s t).1).result ≠ none
  | [], _, h => h
  | e :: rest, s, h => by
      simpa [runSteps] using
        runSteps_result_stays rest ((lifeStep s e).state) (lifeStep_result_stays s e h)

/-- A lifecycle state with a published document and a live refine
invocation, used by witnesses. -/
def refineLiveState : LifeState :=
  { result := some sampleAnalysisResponse, error := none, loading := false,
    refining := true, analyzeToken := none, refineToken := some 4 }

/-- C5: an abandoned attempt is attributed exactly one cause — the caller's
signal takes precedence over the deadline (`abortError` whenever the user
signal aborted, `timeoutError` only otherwise); an attempt abandoned by the
caller is rethrown at once, never retried; and at the lifecycle level a
cancelled invocation's completion publishes nothing: no error message and
no result. -/
theorem c5_caller_cancellation (env : RetryEnv) :
    (∀ b : Bool, fetchWithTimeout DEFAULT_TIMEOUT_MS (GuardEvent.abortFired b) =
        Except.error (if b then JsError.abortError
          else JsError.timeoutError
            ("Request timed out after " ++ toString DEFAULT_TIMEOUT_MS ++ "ms"))) ∧
    (∀ (maxR n : Nat) (lE : Option JsError) (fuel : Nat),
        env.events n = GuardEvent.abortFired true →
        fetchWithRetryGo env maxR n lE (fuel + 1) =
          { outcome := Except.error JsError.abortError, attempts := 1, waits := [] }) ∧
    (∀ (s : LifeState) (k : OpKind) (id : Nat) (res : NetResult),
        s.tokenOf k ≠ some id →
        (lifeStep s (LifeEvent.complete k id res)).pubs = [] ∧
        (lifeStep s (LifeEvent.complete k id res)).state.error = s.error ∧
        (lifeStep s (LifeEvent.complete k id res)).state.result = s.result) := by
  refine ⟨?_, ?_, ?_⟩
  · intro b
    cases b <;> rfl
  · intro maxR n lE fuel hev
    simp [fetchWithRetryGo, hev, fetchWithTimeout, JsError.isAbortName]
  · intro s k id res h
    obtain ⟨h1, h2, h3⟩ := lifeStep_stale_complete s k id res h
    exact ⟨h1, h3, h2⟩

theorem c5_witness :
    fetchWithTimeout DEFAULT_TIMEOUT_MS (GuardEvent.abortFired true) =
      Except.error JsError.abortError ∧
    fetchWithRetryGo callerAbortEnv 2 0 none 3 =
      { outcome := Except.error JsError.abortError, attempts := 1, waits := [] } ∧
    (lifeStep initialLifeState (LifeEvent.complete OpKind.analyzeOp 5
        (NetResult.failure (JsError.typeError "boom")))).pubs = [] := by
  have h := c5_caller_cancellation callerAbortEnv
  refine ⟨?_, ?_, ?_⟩
  · simpa using h.1 true
  · have h2 := h.2.1 2 0 none 2 rfl
    norm_num at h2
    exact h2
  · exact (h.2.2 initialLifeState OpKind.analyzeOp 5
      (NetResult.failure (JsError.typeError "boom"))
      (by simp [initialLifeState, LifeState.tokenOf])).1

/-- C6: starting an operation supersedes the prior in-flight one of the
same kind. After `start k i`, any events, `start k j`, and any further
events in which `i` does not start again, a completion of `i` publishes
nothing; and the latest-started invocation `j` does publish its result on
completion. Publication is therefore last-writer-wins by start order. -/
theorem c6_last_writer_wins (s : LifeState) (t2 t3 : List LifeEvent)
    (k : OpKind) (i j : Nat) (res : NetResult) (doc : AnalysisResponse)
    (hij : i ≠ j)
    (hres : k = OpKind.refineOp → s.result ≠ none)
    (hni : LifeEvent.start k i ∉ t3) :
    (lifeStep ((runSteps s ([LifeEvent.start k i] ++ t2 ++ [LifeEvent.start k j] ++ t3)).1)
        (LifeEvent.complete k i res)).pubs = [] ∧
    (lifeStep ((runSteps s [LifeEvent.start k i, LifeEvent.start k j]).1)
        (LifeEvent.complete k j (NetResult.success doc))).pubs =
      [Publication.publishedDoc j doc] := by
  constructor
  · have hsplit1 : (runSteps s ([LifeEvent.start k i] ++ t2 ++ [LifeEvent.start k j] ++ t3)).1 =
        (runSteps (runSteps s ([LifeEvent.start k i] ++ t2 ++ [LifeEvent.start k j])).1 t3).1 :=
      runSteps_append_fst s _ t3
    have hsplit2 : (runSteps s ([LifeEvent.start k i] ++ t2 ++ [LifeEvent.start k j])).1 =
        (runSteps (runSteps s ([LifeEvent.start k i] ++ t2)).1 [LifeEvent.start k j]).1 :=
      runSteps_append_fst s _ [LifeEvent.start k j]
    have hsplit3 : (runSteps s ([LifeEvent.start k i] ++ t2)).1 =
        (runSteps (runSteps s [LifeEvent.start k i]).1 t2).1 :=
      runSteps_append_fst s _ t2
    have hs1 : (runSteps s [LifeEvent.start k i]).1 = (lifeStep s (LifeEvent.start k i)).state := rfl
    -- the result survives to the moment `j` starts
    have hresY : k = OpKind.refineOp →
        ((runSteps s ([LifeEvent.start k i] ++ t2)).1).result ≠ none := by
      intro hk
      rw [hsplit3, hs1]
      exact runSteps_result_stays t2 _ (by rw [lifeStep_start_result]; exact hres hk)
    -- after `start k j`, the token is `j`
    have htokX : ((runSteps s ([LifeEvent.start k i] ++ t2 ++ [LifeEvent.start k j])).1).tokenOf k =
        some j := by
      rw [hsplit2]
      have : (runSteps (runSteps s ([LifeEvent.start k i] ++ t2)).1 [LifeEvent.start k j]).1 =
          (lifeStep (runSteps s ([LifeEvent.start k i] ++ t2)).1 (LifeEvent.start k j)).state := rfl
      rw [this]
      exact lifeStep_start_arms _ k j hresY
    have htokne : ((runSteps s ([LifeEvent.start k i] ++ t2 ++ [LifeEvent.start k j])).1).tokenOf k ≠
        some i := by
      rw [htokX]
      intro hc
      exact hij (Option.some.inj hc).symm
    have hfinal := runSteps_token_ne k i t3 _ hni htokne
    rw [hsplit1] at *
    exact (lifeStep_stale_complete _ k i res hfinal).1
  · have hs2 : (runSteps s [LifeEvent.start k i, LifeEvent.start k j]).1 =
        (lifeStep (lifeStep s (LifeEvent.start k i)).state (LifeEvent.start k j)).state := rfl
    have hres1 : k = OpKind.refineOp → ((lifeStep s (LifeEvent.start k i)).state).result ≠ none := by
      intro hk
      rw [lifeStep_start_result]
      exact hres hk
    have htok : ((runSteps s [LifeEvent.start k i, LifeEvent.start k j]).1).tokenOf k = some j := by
      rw [hs2]
      exact lifeStep_start_arms _ k j hres1
    simp only [lifeStep]
    rw [if_pos htok]

theorem c6_witness :
    (lifeStep ((runSteps initialLifeState
        ([LifeEvent.start OpKind.analyzeOp 0] ++ [] ++ [LifeEvent.start OpKind.analyzeOp 1] ++ [])).1)
        (LifeEvent.complete OpKind.analyzeOp 0 (NetResult.success sampleAnalysisResponse))).pubs = [] ∧
    (lifeStep ((runSteps initialLifeState
        [LifeEvent.start OpKind.analyzeOp 0, LifeEvent.start OpKind.analyzeOp 1]).1)
        (LifeEvent.complete OpKind.analyzeOp 1 (NetResult.success sampleAnalysisResponse))).pubs =
      [Publication.publishedDoc 1 sampleAnalysisResponse] :=
  c6_last_writer_wins initialLifeState [] [] OpKind.analyzeOp 0 1
    (NetResult.success sampleAnalysisResponse) sampleAnalysisResponse
    (by decide) (fun h => by cases h) (by simp)

/-- C7: a refine that ends in a terminal (non-abort) failure publishes only
the formatted error message and leaves the previously published document
unchanged; a refine that ends in cancellation — stale completion after
supersession or teardown, or an abort reaching a live invocation —
publishes nothing at all and leaves both the document and the error
unchanged. -/
theorem c7_refine_failure_frame :
    (∀ (s : LifeState) (id : Nat) (e : JsError), s.refineToken = some id →
        isAbortError e = false →
        (lifeStep s (LifeEvent.complete OpKind.refineOp id (NetResult.failure e))).state.result =
          s.result ∧
        (lifeStep s (LifeEvent.complete OpKind.refineOp id (NetResult.failure e))).state.error =
          some (formatErrorMessage e) ∧
        (lifeStep s (LifeEvent.complete OpKind.refineOp id (NetResult.failure e))).pubs =
          [Publication.publishedError id (formatErrorMessage e)]) ∧
    (∀ (s : LifeState) (id : Nat) (res : NetResult), s.refineToken ≠ some id →
        (lifeStep s (LifeEvent.complete OpKind.refineOp id res)).pubs = [] ∧
        (lifeStep s (LifeEvent.complete OpKind.refineOp id res)).state.result = s.result ∧
        (lifeStep s (LifeEvent.complete OpKind.refineOp id res)).state.error = s.error) ∧
    (∀ (s : LifeState) (id : Nat), s.refineToken = some id →
        (lifeStep s (LifeEvent.complete OpKind.refineOp id
            (NetResult.failure JsError.abortError))).pubs = [] ∧
        (lifeStep s (LifeEvent.complete OpKind.refineOp id
            (NetResult.failure JsError.abortError))).state.result = s.result ∧
        (lifeStep s (LifeEvent.complete OpKind.refineOp id
            (NetResult.failure JsError.abortError))).state.error = s.error) := by
  refine ⟨?_, ?_, ?_⟩
  · intro s id e htok hab
    have htok2 : s.tokenOf OpKind.refineOp = some id := htok
    simp [lifeStep, htok2, hab, clearFlag]
  · intro s id res h
    have h2 : s.tokenOf OpKind.refineOp ≠ some id := h
    obtain ⟨h1, h3, h4⟩ := lifeStep_stale_complete s OpKind.refineOp id res h2
    exact ⟨h1, h3, h4⟩
  · intro s id htok
    have htok2 : s.tokenOf OpKind.refineOp = some id := htok
    simp [lifeStep, htok2, isAbortError, JsError.isAbortName, clearFlag]

theorem c7_witness :
    ((lifeStep refineLiveState (LifeEvent.complete OpKind.refineOp 4
        (NetResult.failure (JsError.typeError "boom")))).state.result =
      refineLiveState.result ∧
     (lifeStep refineLiveState (LifeEvent.complete OpKind.refineOp 4
        (NetResult.failure (JsError.typeError "boom")))).state.error =
      some (formatErrorMessage (JsError.typeError "boom")) ∧
     (lifeStep refineLiveState (LifeEvent.complete OpKind.refineOp 4
        (NetResult.failure (JsError.typeError "boom")))).pubs =
      [Publication.publishedError 4 (formatErrorMessage (JsError.typeError "boom"))]) ∧
    ((lifeStep refineLiveState (LifeEvent.complete OpKind.refineOp 9
        (NetResult.success sampleAnalysisResponse))).pubs = [] ∧
     (lifeStep refineLiveState (LifeEvent.complete OpKind.refineOp 9
        (NetResult.success sampleAnalysisResponse))).state.result =
      refineLiveState.result ∧
     (lifeStep refineLiveState (LifeEvent.complete OpKind.refineOp 9
        (NetResult.success sampleAnalysisResponse))).state.error =
      refineLiveState.error) :=
  ⟨c7_refine_failure_frame.1 refineLiveState 4 (JsError.typeError "boom") rfl rfl,
   c7_refine_failure_frame.2.1 refineLiveState 9
     (NetResult.success sampleAnalysisResponse) (by simp [refineLiveState])⟩

/-- C8: the minimum-content validation is the same predicate at both
boundary crossings, so the accept/reject decision is identical; the fully
populated sample passes both, and removing `draft_email.to`'s only element
or shortening `description_of_incident` below 10 characters fails both. -/
theorem c8_validation_both_boundaries :
    (∀ r : AnalysisResponse, acceptAnalyzeResponse r = validateRefinementBase r) ∧
    acceptAnalyzeResponse sampleAnalysisResponse = true ∧
    validateRefinementBase sampleAnalysisResponse = true ∧
    acceptAnalyzeResponse sampleNoRecipients = false ∧
    validateRefinementBase sampleNoRecipients = false ∧
    acceptAnalyzeResponse sampleShortDescription = false ∧
    validateRefinementBase sampleShortDescription = false := by
  refine ⟨fun r => rfl, ?_, ?_, ?_, ?_, ?_, ?_⟩ <;> decide

/-- C9: the 30-second figure is enforced per attempt, not per invocation.
A run of three consecutive 503 responses, each answered just inside the
per-attempt deadline (29 s ≤ `DEFAULT_TIMEOUT_MS`), exhausts the retry
budget after 3 attempts yet takes 90 s of wall-clock time — the claimed
overall 30 s budget does not hold on the code. -/
theorem c9_total_time_exceeds_budget :
    (fetchWithRetry threeServerFailuresEnv MAX_RETRIES).attempts = 3 ∧
    (∀ n, (fun _ : Nat => (29000 : ℚ)) n ≤ DEFAULT_TIMEOUT_MS) ∧
    (fetchWithRetry threeServerFailuresEnv MAX_RETRIES).elapsed
      (fun _ => (29000 : ℚ)) = 90000 ∧
    ¬ (fetchWithRetry threeServerFailuresEnv MAX_RETRIES).elapsed
      (fun _ => (29000 : ℚ)) ≤ 30000 := by
  have hgo : fetchWithRetry threeServerFailuresEnv MAX_RETRIES =
      { outcome := .ok response503, attempts := 3,
        waits := [calculateRetryDelay 0 0, calculateRetryDelay 1 0] } := by
    show fetchWithRetryGo threeServerFailuresEnv 2 0 none 3 = _
    norm_num [fetchWithRetryGo, threeServerFailuresEnv, response503, fetchWithTimeout]
  have hd0 : calculateRetryDelay 0 0 = 1000 := by
    norm_num [calculateRetryDelay, INITIAL_RETRY_DELAY_MS, MAX_RETRY_DELAY_MS]
  have hd1 : calculateRetryDelay 1 0 = 2000 := by
    norm_num [calculateRetryDelay, INITIAL_RETRY_DELAY_MS, MAX_RETRY_DELAY_MS]
  refine ⟨by rw [hgo], ?_, ?_, ?_⟩
  · intro n
    norm_num [DEFAULT_TIMEOUT_MS]
  · rw [hgo]
    simp [RetryResult.elapsed, hd0, hd1, List.range_succ]
    norm_num
  · rw [hgo]
    simp [RetryResult.elapsed, hd0, hd1, List.range_succ]
    norm_num

end IncidentResponse
